import Mathlib

/-!
Verification of the Reward Determination & Collection Bookkeeping core of the
Charactle repository (src/server/routes/rewards.ts, with types from
src/shared/api.ts).

Modelling conventions:
* JavaScript numbers are modelled as `ℚ` (all arithmetic in the core is exact
  on the inputs of interest); `Math.floor` is `Int.floor`, `Math.round` is
  `jsRound` (round half toward +∞, as in JS).
* `Math.random()` is modelled by a deterministic stream `Rng`: `seq : ℕ → ℚ`
  gives the successive values in `[0,1)` and `pos` is the index of the next
  draw.  Each call to `Rng.random` consumes exactly one value.
* Request fields that may be `undefined` are `Option`s; JS falsiness of a
  string (`!characterId`) is `characterId.getD "" = ""` (absent or empty).
* ISO timestamp strings are modelled by their millisecond value (`ℕ`);
  `new Date(s).getTime()` is then the identity, which preserves the comparator
  used by the collection sort.
* The external ML difficulty oracle call is modelled by an `OracleOutcome`:
  the `fetch` either throws (`thrown`) or yields a response with an `ok` flag
  and a JSON `difficulty_score` body.
* The card's display `id` string (character id + timestamp + random base-36
  suffix) is not modelled: no claim mentions it.
-/

/-- The `CardRarity` union type from src/shared/api.ts. -/
inductive CardRarity
  | common
  | rare
  | epic
  | legendary
  | mythic
  deriving DecidableEq, Repr

/-- The card variant union type `'standard' | 'shiny' | 'holographic' | 'animated'`. -/
inductive CardVariant
  | standard
  | shiny
  | holographic
  | animated
  deriving DecidableEq, Repr

/-- The `universe: 'Marvel' | 'DC' | 'Other'` union type of `Character`
(src/shared/api.ts line 21). -/
inductive Universe
  | Marvel
  | DC
  | Other
  deriving DecidableEq, Repr

/-- The string value carried by each member of the `universe` union type. -/
def Universe.displayString : Universe → String
  | .Marvel => "Marvel"
  | .DC => "DC"
  | .Other => "Other"

/-- The attributes of a catalog character used by the core
(`character.attributes.powers`); the remaining attribute fields
(alignment, team, firstAppearance) are not read by the reward code. -/
structure CharacterAttributes where
  powers : List String
  deriving DecidableEq, Repr

/-- A catalog character, restricted to the fields the reward core reads.
Modelled from the spec: the catalog data file (server/data/characters.ts) is
not part of the sources; its entries are typed by the `Character` interface of
src/shared/api.ts, in particular `universe : 'Marvel' | 'DC' | 'Other'`. -/
structure Character where
  id : String
  name : String
  universe' : Universe
  imageUrl : String
  characterImageUrl : String
  attributes : CharacterAttributes
  deriving DecidableEq, Repr

/-- The per-card stat triple computed by `calculateCharacterStats`. -/
structure CharacterStats where
  popularity : ℤ
  difficulty : ℤ
  power : ℤ
  deriving DecidableEq, Repr

/-- A minted card (`CharacterCard` of src/shared/api.ts), restricted to the
fields the reward core writes and later reads; `unlockedAt` is the timestamp
in milliseconds standing for the ISO string. -/
structure CharacterCard where
  characterId : String
  characterName : String
  rarity : CardRarity
  serialNumber : ℕ
  maxSupply : ℕ
  unlockedAt : ℕ
  variant : CardVariant
  stats : CharacterStats
  imageUrl : String
  characterImageUrl : String
  deriving DecidableEq, Repr

/-- An achievement record as produced by the rewards routes. -/
structure Achievement where
  id : String
  name : String
  description : String
  icon : String
  progress : ℕ
  maxProgress : ℕ
  unlockedAt : Option ℕ
  deriving DecidableEq, Repr

/-- The deterministic model of `Math.random()`: `seq n` is the `n`-th value
produced (each in `[0,1)` for a faithful generator), `pos` the next index. -/
structure Rng where
  seq : ℕ → ℚ
  pos : ℕ

/-- One call to `Math.random()`: yields the current value and advances. -/
def Rng.random (g : Rng) : ℚ × Rng :=
  (g.seq g.pos, { seq := g.seq, pos := g.pos + 1 })

/-- JavaScript `Math.round`: round half toward positive infinity. -/
def jsRound (x : ℚ) : ℤ := ⌊x + 1 / 2⌋

/-- `calculatePerformanceScore` (rewards.ts lines 29–50): 0 on a loss,
otherwise 100 minus the saturating time penalty, 10 per clue and 5 per wrong
attempt, clamped to [0, 100]. -/
def calculatePerformanceScore (guessTime cluesUsed wrongAttempts : ℚ)
    (isWon : Bool) : ℚ :=
  if !isWon then 0
  else
    let timePenalty := min 30 guessTime / 30 * 30
    max 0 (min 100 (100 - timePenalty - cluesUsed * 10 - wrongAttempts * 5))

/-- `determineRarity` (rewards.ts lines 55–93): picks the score bucket, draws
one roll in `[0,100)` and assigns the tier by the bucket's thresholds. -/
def determineRarity (performanceScore : ℚ) (g : Rng) : CardRarity × Rng :=
  if performanceScore ≥ 95 then
    let u := g.random
    let roll := u.1 * 100
    if roll < 20 then (.mythic, u.2)
    else if roll < 60 then (.legendary, u.2)
    else (.epic, u.2)
  else if performanceScore ≥ 80 then
    let u := g.random
    let roll := u.1 * 100
    if roll < 5 then (.mythic, u.2)
    else if roll < 30 then (.legendary, u.2)
    else if roll < 70 then (.epic, u.2)
    else (.rare, u.2)
  else if performanceScore ≥ 60 then
    let u := g.random
    let roll := u.1 * 100
    if roll < 40 then (.epic, u.2)
    else if roll < 80 then (.rare, u.2)
    else (.common, u.2)
  else if performanceScore ≥ 40 then
    let u := g.random
    let roll := u.1 * 100
    if roll < 10 then (.epic, u.2)
    else if roll < 50 then (.rare, u.2)
    else (.common, u.2)
  else
    let u := g.random
    let roll := u.1 * 100
    if roll < 20 then (.rare, u.2)
    else (.common, u.2)

/-- `determineVariant` (rewards.ts lines 98–125): one roll, thresholds keyed
by rarity. -/
def determineVariant (rarity : CardRarity) (g : Rng) : CardVariant × Rng :=
  let u := g.random
  let roll := u.1 * 100
  if rarity = .mythic then
    if roll < 50 then (.animated, u.2)
    else if roll < 80 then (.holographic, u.2)
    else (.shiny, u.2)
  else if rarity = .legendary then
    if roll < 20 then (.animated, u.2)
    else if roll < 50 then (.holographic, u.2)
    else if roll < 80 then (.shiny, u.2)
    else (.standard, u.2)
  else if rarity = .epic then
    if roll < 10 then (.holographic, u.2)
    else if roll < 40 then (.shiny, u.2)
    else (.standard, u.2)
  else if rarity = .rare then
    if roll < 20 then (.shiny, u.2)
    else (.standard, u.2)
  else (.standard, u.2)

/-- The `popularUniverses` allow-list of `calculateCharacterStats`
(rewards.ts line 139). -/
def popularUniverses : List String :=
  ["Marvel Comics", "DC Comics", "Star Wars", "Harry Potter"]

/-- The popularity stat computed at rewards.ts lines 138–142 from one random
value `u`: `[70,100)` for allow-listed universes, `[30,80)` otherwise. -/
def popularityStat (character : Character) (u : ℚ) : ℤ :=
  if popularUniverses.contains character.universe'.displayString then
    ⌊u * 30⌋ + 70
  else
    ⌊u * 50⌋ + 30

/-- Outcome of the difficulty-oracle `fetch`: either the call (or body
parsing) throws, or it returns a response with an `ok` flag and the JSON
`difficulty_score` value. -/
inductive OracleOutcome
  | thrown
  | response (ok : Bool) (difficultyScore : ℚ)
  deriving DecidableEq, Repr

/-- `calculateCharacterStats` (rewards.ts lines 131–177): popularity from the
universe allow-list, difficulty from the oracle (default 50, rounded oracle
score when the response is ok, random fallback only when the call throws),
power from the powers list. -/
def calculateCharacterStats (catalog : List Character) (characterId : String)
    (outcome : OracleOutcome) (g : Rng) : CharacterStats × Rng :=
  match catalog.find? (fun c => c.id = characterId) with
  | none => ({ popularity := 50, difficulty := 50, power := 50 }, g)
  | some character =>
    let u1 := g.random
    let popularity := popularityStat character u1.1
    let d :=
      match outcome with
      | .thrown =>
        let u2 := u1.2.random
        ((⌊u2.1 * 100⌋ : ℤ), u2.2)
      | .response ok score =>
        if ok then ((jsRound score : ℤ), u1.2) else ((50 : ℤ), u1.2)
    let u3 := d.2.random
    let hasPowers := decide (0 < character.attributes.powers.length)
    let power : ℤ :=
      if hasPowers then (⌊(u3.1 * 30 : ℚ)⌋ : ℤ) + 60 else (⌊(u3.1 * 60 : ℚ)⌋ : ℤ) + 20
    ({ popularity := popularity, difficulty := d.1, power := power }, u3.2)

/-- The per-bucket ordered weight tables of the rarity contract (spec §4.2 /
claim C2), listed in the fixed order mythic→legendary→epic→rare→common
(zero-weight tiers omitted must never match a roll below the running sum). -/
def bucketWeights (score : ℚ) : List (CardRarity × ℚ) :=
  if score ≥ 95 then [(.mythic, 20), (.legendary, 40), (.epic, 40)]
  else if score ≥ 80 then [(.mythic, 5), (.legendary, 25), (.epic, 40), (.rare, 30)]
  else if score ≥ 60 then [(.epic, 40), (.rare, 40), (.common, 20)]
  else if score ≥ 40 then [(.epic, 10), (.rare, 40), (.common, 50)]
  else [(.rare, 20), (.common, 80)]

/-- Order-dependent cumulative-threshold sampling, as worded by the spec:
assign the first tier whose cumulative threshold the roll falls under, in
order, falling through to `common` if no threshold matches. -/
def cumulativePick : List (CardRarity × ℚ) → ℚ → ℚ → CardRarity
  | [], _, _ => .common
  | (tier, w) :: rest, acc, roll =>
    if roll < acc + w then tier else cumulativePick rest (acc + w) roll

/-- The rarity selector exactly as the spec's words describe it (weight table
chosen by score bucket, cumulative thresholds in the fixed tier order). -/
def specRarity (score roll : ℚ) : CardRarity :=
  cumulativePick (bucketWeights score) 0 roll

/-- The `maxSupply` conditional chain of `awardCard` (rewards.ts lines
224–227), a function of rarity alone. -/
def maxSupplyOf (rarity : CardRarity) : ℕ :=
  if rarity = .mythic then 100
  else if rarity = .legendary then 500
  else if rarity = .epic then 1000
  else if rarity = .rare then 5000
  else 10000

/-- The edge-triggered achievement pushes of `awardCard` (rewards.ts lines
253–306), evaluated on the post-append collection. -/
def newlyUnlocked (collection : List CharacterCard) (rarity : CardRarity)
    (performanceScore : ℚ) (now : ℕ) : List Achievement :=
  (if collection.length = 1 then
    [{ id := "first-card", name := "First Card",
       description := "Unlock your first character card", icon := "🎴",
       unlockedAt := some now, progress := 1, maxProgress := 1 }]
   else []) ++
  (if collection.length = 10 then
    [{ id := "collector", name := "Collector",
       description := "Unlock 10 character cards", icon := "📚",
       unlockedAt := some now, progress := 10, maxProgress := 10 }]
   else []) ++
  (if rarity = .legendary ∧
      (collection.filter (fun c => c.rarity = .legendary)).length = 1 then
    [{ id := "legendary-pull", name := "Legendary Pull",
       description := "Unlock your first legendary card", icon := "🌟",
       unlockedAt := some now, progress := 1, maxProgress := 1 }]
   else []) ++
  (if performanceScore = 100 then
    [{ id := "perfect-game", name := "Perfect Game",
       description := "Complete a game with a perfect score", icon := "💯",
       unlockedAt := some now, progress := 1, maxProgress := 1 }]
   else [])

/-- An `AwardCardRequest` body as received over the wire: every field may be
absent (`undefined`). -/
structure AwardCardRequest where
  characterId : Option String
  guessTime : Option ℚ
  cluesUsed : Option ℚ
  wrongAttempts : Option ℚ
  isWon : Option Bool
  deriving DecidableEq, Repr

/-- The performance block echoed inside a `CardReward`. -/
structure RewardPerformance where
  guessTime : ℚ
  cluesUsed : ℚ
  wrongAttempts : ℚ
  score : ℚ
  deriving DecidableEq, Repr

/-- The `CardReward` payload of a successful award. -/
structure CardReward where
  card : CharacterCard
  isFirstTime : Bool
  isDuplicate : Bool
  performance : RewardPerformance
  bonusMultiplier : ℚ
  unlockedAchievements : List Achievement
  deriving DecidableEq, Repr

/-- The response of the award endpoint: HTTP 400 `{success:false}` on missing
fields, HTTP 404 `{success:false}` on unknown character, or the reward. -/
inductive AwardResponse
  | invalidInput
  | notFound
  | success (reward : CardReward)
  deriving DecidableEq, Repr

/-- Whether the response is the `{success:true}` shape. -/
def AwardResponse.isSuccess : AwardResponse → Bool
  | .success _ => true
  | _ => false

/-- The reward carried by a successful response. -/
def AwardResponse.reward? : AwardResponse → Option CardReward
  | .success r => some r
  | _ => none

/-- The minted card of a successful response. -/
def AwardResponse.card? (resp : AwardResponse) : Option CharacterCard :=
  resp.reward?.map (fun r => r.card)

/-- The minted card's rarity. -/
def AwardResponse.rarity? (resp : AwardResponse) : Option CardRarity :=
  resp.card?.map (fun c => c.rarity)

/-- The minted card's variant. -/
def AwardResponse.variant? (resp : AwardResponse) : Option CardVariant :=
  resp.card?.map (fun c => c.variant)

/-- The minted card's serial number. -/
def AwardResponse.serialNumber? (resp : AwardResponse) : Option ℕ :=
  resp.card?.map (fun c => c.serialNumber)

/-- The minted card's max supply. -/
def AwardResponse.maxSupply? (resp : AwardResponse) : Option ℕ :=
  resp.card?.map (fun c => c.maxSupply)

/-- The minted card's difficulty stat. -/
def AwardResponse.difficulty? (resp : AwardResponse) : Option ℤ :=
  resp.card?.map (fun c => c.stats.difficulty)

/-- The performance score echoed by a successful response. -/
def AwardResponse.score? (resp : AwardResponse) : Option ℚ :=
  resp.reward?.map (fun r => r.performance.score)

/-- The ids of the achievements reported as newly unlocked (empty on
failure responses). -/
def AwardResponse.unlockedIds : AwardResponse → List String
  | .success r => r.unlockedAchievements.map (fun a => a.id)
  | _ => []

/-- The main body of `awardCard` (rewards.ts lines 199–321) once the request
has been validated and the character resolved: score, rarity and variant
draws, serial/supply accounting, stats, mint, append, edge-triggered
achievement detection, reward composition. -/
def performReward (catalog : List Character) (character : Character)
    (characterId : String) (guessTime cluesUsed wrongAttempts : ℚ)
    (isWon : Bool) (collection : List CharacterCard) (outcome : OracleOutcome)
    (g : Rng) (now : ℕ) : CardReward × List CharacterCard :=
  let performanceScore := calculatePerformanceScore guessTime cluesUsed wrongAttempts isWon
  let rr := determineRarity performanceScore g
  let rarity := rr.1
  let vv := determineVariant rarity rr.2
  let variant := vv.1
  let existingCards := collection.filter (fun c => c.characterId = characterId)
  let isFirstTime := existingCards.length == 0
  let serialNumber := existingCards.length + 1
  let maxSupply := maxSupplyOf rarity
  let characterStats := (calculateCharacterStats catalog characterId outcome vv.2).1
  let newCard : CharacterCard :=
    { characterId := characterId, characterName := character.name,
      rarity := rarity, serialNumber := serialNumber, maxSupply := maxSupply,
      unlockedAt := now, variant := variant, stats := characterStats,
      imageUrl := character.imageUrl,
      characterImageUrl :=
        if character.characterImageUrl = "" then character.imageUrl
        else character.characterImageUrl }
  let newCollection := collection ++ [newCard]
  let bonusMultiplier := performanceScore / 100
  ({ card := newCard, isFirstTime := isFirstTime, isDuplicate := !isFirstTime,
     performance :=
       { guessTime := guessTime, cluesUsed := cluesUsed,
         wrongAttempts := wrongAttempts, score := performanceScore },
     bonusMultiplier := bonusMultiplier,
     unlockedAchievements := newlyUnlocked newCollection rarity performanceScore now },
   newCollection)

/-- `awardCard` (rewards.ts lines 189–335): validation (note: `isWon` is not
checked for presence; a JS-falsy `characterId` — absent or empty — fails),
character lookup, then the reward pipeline.  Returns the response together
with the user's collection after the request. -/
def awardCard (catalog : List Character) (req : AwardCardRequest)
    (collection : List CharacterCard) (outcome : OracleOutcome) (g : Rng)
    (now : ℕ) : AwardResponse × List CharacterCard :=
  if req.characterId.getD "" = "" ∨ req.guessTime = none ∨
      req.cluesUsed = none ∨ req.wrongAttempts = none then
    (.invalidInput, collection)
  else
    match catalog.find? (fun c => c.id = req.characterId.getD "") with
    | none => (.notFound, collection)
    | some character =>
      let out := performReward catalog character (req.characterId.getD "")
        (req.guessTime.getD 0) (req.cluesUsed.getD 0) (req.wrongAttempts.getD 0)
        (req.isWon.getD false) collection outcome g now
      (.success out.1, out.2)

/-- The per-rarity counts of a collection response (all five tiers always
present, defaulting to 0). -/
structure RarityCount where
  common : ℕ
  rare : ℕ
  epic : ℕ
  legendary : ℕ
  mythic : ℕ
  deriving DecidableEq, Repr

/-- The `CardCollection` response body. -/
structure CardCollection where
  cards : List CharacterCard
  totalCards : ℕ
  uniqueCharacters : ℕ
  rarityCount : RarityCount
  completionPercentage : ℚ
  deriving DecidableEq, Repr

/-- `getCardCollection` (rewards.ts lines 340–377).  `collection.sort(...)`
sorts the STORED array in place (JavaScript `Array.prototype.sort` mutates),
descending by `unlockedAt` and stable on ties, so the handler returns the
response TOGETHER with the mutated stored collection.  The fold-with-default
`rarityCount` computation is per-rarity counting. -/
def getCardCollection (catalog : List Character)
    (collection : List CharacterCard) : CardCollection × List CharacterCard :=
  let uniqueCharacters := (collection.map (fun c => c.characterId)).eraseDups.length
  let rarityCount : RarityCount :=
    { common := (collection.filter (fun c => c.rarity = .common)).length,
      rare := (collection.filter (fun c => c.rarity = .rare)).length,
      epic := (collection.filter (fun c => c.rarity = .epic)).length,
      legendary := (collection.filter (fun c => c.rarity = .legendary)).length,
      mythic := (collection.filter (fun c => c.rarity = .mythic)).length }
  let completionPercentage := (uniqueCharacters : ℚ) / (catalog.length : ℚ) * 100
  let sorted := collection.mergeSort (fun a b => decide (b.unlockedAt ≤ a.unlockedAt))
  ({ cards := sorted, totalCards := sorted.length,
     uniqueCharacters := uniqueCharacters, rarityCount := rarityCount,
     completionPercentage := completionPercentage }, sorted)

/-- `getAchievements` (rewards.ts lines 382–436): the level-triggered view,
recomputed from the stored collection, with `unlockedAt` obtained by indexing
the stored order at positions 0, 9 and 49 and by first-match lookups. -/
def getAchievements (collection : List CharacterCard) : List Achievement :=
  [{ id := "first-card", name := "First Card",
     description := "Unlock your first character card", icon := "🎴",
     progress := min collection.length 1, maxProgress := 1,
     unlockedAt :=
       if collection.length ≥ 1 then (collection.get? 0).map (fun c => c.unlockedAt)
       else none },
   { id := "collector", name := "Collector",
     description := "Unlock 10 character cards", icon := "📚",
     progress := min collection.length 10, maxProgress := 10,
     unlockedAt :=
       if collection.length ≥ 10 then (collection.get? 9).map (fun c => c.unlockedAt)
       else none },
   { id := "master-collector", name := "Master Collector",
     description := "Unlock 50 character cards", icon := "🏆",
     progress := min collection.length 50, maxProgress := 50,
     unlockedAt :=
       if collection.length ≥ 50 then (collection.get? 49).map (fun c => c.unlockedAt)
       else none },
   { id := "legendary-pull", name := "Legendary Pull",
     description := "Unlock your first legendary card", icon := "🌟",
     progress := min (collection.filter (fun c => c.rarity = .legendary)).length 1,
     maxProgress := 1,
     unlockedAt :=
       (collection.find? (fun c => c.rarity = .legendary)).map (fun c => c.unlockedAt) },
   { id := "mythic-hunter", name := "Mythic Hunter",
     description := "Unlock a mythic card", icon := "⭐",
     progress := min (collection.filter (fun c => c.rarity = .mythic)).length 1,
     maxProgress := 1,
     unlockedAt :=
       (collection.find? (fun c => c.rarity = .mythic)).map (fun c => c.unlockedAt) }]

/-- The inputs of one award request: body, oracle outcome, random stream and
clock reading. -/
structure AwardEnv where
  req : AwardCardRequest
  outcome : OracleOutcome
  g : Rng
  now : ℕ

/-- Sequential processing of award requests against the collection store. -/
def runAwards (catalog : List Character) (state : List CharacterCard) :
    List AwardEnv → List CharacterCard
  | [] => state
  | e :: rest =>
    runAwards catalog (awardCard catalog e.req state e.outcome e.g e.now).2 rest

/-- A request that passes validation and resolves a catalog character, hence
always succeeds (success of `awardCard` does not depend on the store). -/
def validRequest (catalog : List Character) (req : AwardCardRequest) : Bool :=
  !(req.characterId.getD "" = "") && req.guessTime.isSome &&
    req.cluesUsed.isSome && req.wrongAttempts.isSome &&
    (catalog.find? (fun c => c.id = req.characterId.getD "")).isSome

/-- The number of cards of character `c` in the store. -/
def countC (state : List CharacterCard) (c : String) : ℕ :=
  (state.filter (fun card => card.characterId = c)).length

/-- The serial numbers of character `c`'s cards, in store order. -/
def serialsOf (state : List CharacterCard) (c : String) : List ℕ :=
  (state.filter (fun card => card.characterId = c)).map (fun card => card.serialNumber)

/-- A concrete catalog entry for closed evaluations. -/
def chSample : Character :=
  { id := "spider-man", name := "Spider-Man", universe' := .Marvel,
    imageUrl := "img", characterImageUrl := "cimg",
    attributes := { powers := ["web-slinging"] } }

/-- A one-character concrete catalog. -/
def catalogSample : List Character := [chSample]

/-- A generator producing the same value on every draw. -/
def constRng (u : ℚ) : Rng := { seq := fun _ => u, pos := 0 }

/-- A fully-populated winning request. -/
def reqWin : AwardCardRequest :=
  { characterId := some "spider-man", guessTime := some 5, cluesUsed := some 0,
    wrongAttempts := some 0, isWon := some true }

/-- A fully-populated losing request. -/
def reqLost : AwardCardRequest :=
  { characterId := some "spider-man", guessTime := some 5, cluesUsed := some 0,
    wrongAttempts := some 0, isWon := some false }

/-- A request whose only absent field is `isWon`. -/
def reqNoIsWon : AwardCardRequest :=
  { characterId := some "spider-man", guessTime := some 5, cluesUsed := some 0,
    wrongAttempts := some 0, isWon := none }

/-- A request missing `guessTime`. -/
def reqNoGuessTime : AwardCardRequest :=
  { characterId := some "spider-man", guessTime := none, cluesUsed := some 0,
    wrongAttempts := some 0, isWon := some true }

/-- Store contents after one award (timestamp 1000) from empty. -/
def stateOne : List CharacterCard :=
  (awardCard catalogSample reqWin [] (.response true 50) (constRng (99/100)) 1000).2

/-- Store contents after a second award (timestamp 2000). -/
def stateTwo : List CharacterCard :=
  (awardCard catalogSample reqWin stateOne (.response true 50) (constRng (99/100)) 2000).2

/-- Store contents after a subsequent GET /collection call (the handler's
in-place sort mutates the stored array). -/
def stateSorted : List CharacterCard :=
  (getCardCollection catalogSample stateTwo).2

/-- Award inputs used by witnesses: a winning award at time 1000. -/
def envA : AwardEnv :=
  { req := reqWin, outcome := .response true 50, g := constRng (1/2), now := 1000 }

/-- Award inputs used by witnesses: a winning award at time 2000. -/
def envB : AwardEnv :=
  { req := reqWin, outcome := .response true 50, g := constRng (1/2), now := 2000 }

/-- C1: `calculatePerformanceScore` returns exactly 0 when `isWon` is false;
otherwise it returns `max 0 (min 100 (100 - min guessTime 30 / 30 * 30 -
10·cluesUsed - 5·wrongAttempts))`; for all valid inputs (non-negative
`guessTime`, `cluesUsed` in 0..3, non-negative `wrongAttempts`) the result
lies in [0, 100] inclusive. -/
theorem calculatePerformanceScore_spec (gt cu wa : ℚ) (won : Bool)
    (hgt : 0 ≤ gt) (hcu0 : 0 ≤ cu) (hcu3 : cu ≤ 3) (hwa : 0 ≤ wa) :
    calculatePerformanceScore gt cu wa false = 0 ∧
    calculatePerformanceScore gt cu wa true =
      max 0 (min 100 (100 - min gt 30 / 30 * 30 - 10 * cu - 5 * wa)) ∧
    0 ≤ calculatePerformanceScore gt cu wa won ∧
    calculatePerformanceScore gt cu wa won ≤ 100 := by
  have hbody : (100 : ℚ) - min 30 gt / 30 * 30 - cu * 10 - wa * 5
      = 100 - min gt 30 / 30 * 30 - 10 * cu - 5 * wa := by
    rw [min_comm]; ring
  refine ⟨rfl, ?_, ?_, ?_⟩
  · simp only [calculatePerformanceScore, Bool.not_true, Bool.false_eq_true,
      if_false, hbody]
  · cases won with
    | false => norm_num [calculatePerformanceScore]
    | true =>
      simp only [calculatePerformanceScore, Bool.not_true, Bool.false_eq_true,
        if_false]
      exact le_max_left _ _
  · cases won with
    | false => norm_num [calculatePerformanceScore]
    | true =>
      simp only [calculatePerformanceScore, Bool.not_true, Bool.false_eq_true,
        if_false]
      exact max_le (by norm_num) (min_le_left _ _)

/-- Witness for C1 at the spec's pathological valid input
(guessTime 10000, cluesUsed 3, wrongAttempts 50). -/
theorem calculatePerformanceScore_spec_witness :
    calculatePerformanceScore 10000 3 50 false = 0 ∧
    calculatePerformanceScore 10000 3 50 true =
      max 0 (min 100 (100 - min 10000 30 / 30 * 30 - 10 * 3 - 5 * 50)) ∧
    0 ≤ calculatePerformanceScore 10000 3 50 true ∧
    calculatePerformanceScore 10000 3 50 true ≤ 100 :=
  calculatePerformanceScore_spec 10000 3 50 true (by norm_num) (by norm_num)
    (by norm_num) (by norm_num)

/-- C2: for every performance score, `determineRarity` consumes exactly one
random roll in `[0,100)` (the generator advances by exactly one position) and
assigns the tier exactly as the order-dependent cumulative-threshold tables
of the spec (`specRarity`) prescribe. -/
theorem determineRarity_one_roll_spec (score : ℚ) (g : Rng)
    (h0 : 0 ≤ g.seq g.pos) (h1 : g.seq g.pos < 1) :
    (determineRarity score g).2 = { seq := g.seq, pos := g.pos + 1 } ∧
    (determineRarity score g).1 = specRarity score (g.seq g.pos * 100) := by
  have hr0 : (0 : ℚ) ≤ g.seq g.pos * 100 := by nlinarith
  have hr1 : g.seq g.pos * 100 < 100 := by nlinarith
  constructor
  · unfold determineRarity Rng.random
    dsimp only
    split_ifs <;> rfl
  · unfold determineRarity specRarity bucketWeights Rng.random
    dsimp only
    split_ifs <;> simp only [cumulativePick] <;>
      split_ifs <;> first | rfl | (exfalso; linarith)

/-- Witness for C2 at score 100 and a draw of 1/2 (roll 50 → legendary). -/
theorem determineRarity_one_roll_spec_witness :
    (determineRarity 100 (constRng (1/2))).2
      = { seq := (constRng (1/2)).seq, pos := (constRng (1/2)).pos + 1 } ∧
    (determineRarity 100 (constRng (1/2))).1
      = specRarity 100 ((constRng (1/2)).seq (constRng (1/2)).pos * 100) :=
  determineRarity_one_roll_spec 100 (constRng (1/2)) (by norm_num [constRng])
    (by norm_num [constRng])

/-- Counterexample to C3: a request missing only `isWon` is NOT rejected —
`awardCard` succeeds and the collection store is mutated (one card appended),
because the validation check at rewards.ts line 193 omits `isWon`. -/
theorem awardCard_missing_isWon_processed :
    ((awardCard catalogSample reqNoIsWon [] (.response true 50)
        (constRng (1/2)) 1000).1.isSuccess = true) ∧
    ((awardCard catalogSample reqNoIsWon [] (.response true 50)
        (constRng (1/2)) 1000).2.length = 1) := by
  constructor
  · rfl
  · rfl

/-- C3 (amended): a request in which `characterId` is JS-falsy (absent or
empty) or `guessTime`, `cluesUsed` or `wrongAttempts` is absent fails with
`InvalidInput` and leaves the store untouched; a request passing that check —
in particular one missing only `isWon` — is never rejected as `InvalidInput`
(it proceeds with `isWon` behaving as false). -/
theorem awardCard_validation (catalog : List Character) (req : AwardCardRequest)
    (collection : List CharacterCard) (outcome : OracleOutcome) (g : Rng)
    (now : ℕ) :
    (req.characterId.getD "" = "" ∨ req.guessTime = none ∨
        req.cluesUsed = none ∨ req.wrongAttempts = none →
      awardCard catalog req collection outcome g now = (.invalidInput, collection)) ∧
    (¬(req.characterId.getD "" = "" ∨ req.guessTime = none ∨
        req.cluesUsed = none ∨ req.wrongAttempts = none) →
      (awardCard catalog req collection outcome g now).1 ≠ .invalidInput) := by
  constructor
  · intro h
    unfold awardCard
    rw [if_pos h]
  · intro h
    unfold awardCard
    rw [if_neg h]
    cases hf : catalog.find? (fun c => c.id = req.characterId.getD "") with
    | none => simp
    | some character => simp

/-- Witness for C3 (amended): a request missing `guessTime` is rejected with
no mutation, and the request missing only `isWon` is not rejected. -/
theorem awardCard_validation_witness :
    (awardCard catalogSample reqNoGuessTime [] (.response true 50)
        (constRng (1/2)) 1000 = (.invalidInput, [])) ∧
    ((awardCard catalogSample reqNoIsWon [] (.response true 50)
        (constRng (1/2)) 1000).1 ≠ .invalidInput) :=
  ⟨(awardCard_validation catalogSample reqNoGuessTime [] (.response true 50)
      (constRng (1/2)) 1000).1 (by simp [reqNoGuessTime]),
   (awardCard_validation catalogSample reqNoIsWon [] (.response true 50)
      (constRng (1/2)) 1000).2 (by simp [reqNoIsWon])⟩

/-- Counterexample to C4: an award with `isWon := false` (score 0) whose
rarity roll is 10 yields a `rare` card (not `common`), and its variant roll
of 10 then yields `shiny` (not `standard`). -/
theorem lossAward_can_yield_rare_shiny :
    ((awardCard catalogSample reqLost [] (.response true 50)
        (constRng (1/10)) 1000).1.rarity? = some .rare) ∧
    ((awardCard catalogSample reqLost [] (.response true 50)
        (constRng (1/10)) 1000).1.variant? = some .shiny) ∧
    (CardRarity.rare ≠ .common) ∧ (CardVariant.shiny ≠ .standard) := by
  have hrar : ∀ g : Rng, (awardCard catalogSample reqLost []
      (.response true 50) g 1000).1.rarity?
      = some (determineRarity (calculatePerformanceScore 5 0 0 false) g).1 := by
    intro g
    simp [awardCard, performReward, reqLost, catalogSample, chSample,
      List.find?, AwardResponse.rarity?, AwardResponse.card?, AwardResponse.reward?]
  have hvar : ∀ g : Rng, (awardCard catalogSample reqLost []
      (.response true 50) g 1000).1.variant?
      = some (determineVariant
          (determineRarity (calculatePerformanceScore 5 0 0 false) g).1
          (determineRarity (calculatePerformanceScore 5 0 0 false) g).2).1 := by
    intro g
    simp [awardCard, performReward, reqLost, catalogSample, chSample,
      List.find?, AwardResponse.variant?, AwardResponse.card?, AwardResponse.reward?]
  have hdr : determineRarity (calculatePerformanceScore 5 0 0 false) (constRng (1/10))
      = (.rare, { seq := fun _ => 1/10, pos := 1 }) := by
    norm_num [determineRarity, Rng.random, constRng, calculatePerformanceScore]
  refine ⟨?_, ?_, by decide, by decide⟩
  · rw [hrar, hdr]
  · rw [hvar, hdr]
    norm_num [determineVariant, Rng.random]
    decide

/-- C4 (amended): with `isWon` false the score is 0 and the rarity and
variant draws still occur (two generator positions consumed); the rarity is
drawn from the <40 bucket — `rare` exactly when the rarity roll is < 20,
`common` otherwise — and the variant is `shiny` exactly when the rarity came
out `rare` and the variant roll is < 20, `standard` otherwise. -/
theorem lossAward_rarity_variant (gt cu wa : ℚ) (g : Rng)
    (h0 : 0 ≤ g.seq g.pos) (h1 : g.seq g.pos < 1)
    (h2 : 0 ≤ g.seq (g.pos + 1)) (h3 : g.seq (g.pos + 1) < 1) :
    calculatePerformanceScore gt cu wa false = 0 ∧
    (determineVariant
        (determineRarity (calculatePerformanceScore gt cu wa false) g).1
        (determineRarity (calculatePerformanceScore gt cu wa false) g).2).2.pos
      = g.pos + 2 ∧
    (determineRarity (calculatePerformanceScore gt cu wa false) g).1
      = (if g.seq g.pos * 100 < 20 then .rare else .common) ∧
    (determineVariant
        (determineRarity (calculatePerformanceScore gt cu wa false) g).1
        (determineRarity (calculatePerformanceScore gt cu wa false) g).2).1
      = (if g.seq g.pos * 100 < 20 ∧ g.seq (g.pos + 1) * 100 < 20
         then .shiny else .standard) := by
  have hscore : calculatePerformanceScore gt cu wa false = 0 := rfl
  rw [hscore]
  have hrar : determineRarity 0 g
      = (if g.seq g.pos * 100 < 20 then (.rare, { seq := g.seq, pos := g.pos + 1 })
         else (.common, { seq := g.seq, pos := g.pos + 1 })) := by
    unfold determineRarity Rng.random
    dsimp only
    norm_num
  rw [hrar]
  by_cases hroll : g.seq g.pos * 100 < 20
  · rw [if_pos hroll]
    refine ⟨rfl, ?_, ?_, ?_⟩
    · unfold determineVariant Rng.random
      dsimp only
      split_ifs <;> rfl
    · simp [hroll]
    · unfold determineVariant Rng.random
      dsimp only
      norm_num
      by_cases hv : g.seq (g.pos + 1) * 100 < 20
      · simp [hv, hroll]
      · simp [hv, hroll]
  · rw [if_neg hroll]
    refine ⟨rfl, ?_, ?_, ?_⟩
    · unfold determineVariant Rng.random
      dsimp only
      split_ifs <;> rfl
    · simp [hroll]
    · unfold determineVariant Rng.random
      dsimp only
      norm_num
      simp [hroll]

/-- Witness for C4 (amended) with both draws at 1/2 (rolls 50/50 →
common, standard). -/
theorem lossAward_rarity_variant_witness :
    calculatePerformanceScore 5 0 0 false = 0 ∧
    (determineVariant
        (determineRarity (calculatePerformanceScore 5 0 0 false) (constRng (1/2))).1
        (determineRarity (calculatePerformanceScore 5 0 0 false) (constRng (1/2))).2).2.pos
      = (constRng (1/2)).pos + 2 ∧
    (determineRarity (calculatePerformanceScore 5 0 0 false) (constRng (1/2))).1
      = (if (constRng (1/2)).seq (constRng (1/2)).pos * 100 < 20 then .rare else .common) ∧
    (determineVariant
        (determineRarity (calculatePerformanceScore 5 0 0 false) (constRng (1/2))).1
        (determineRarity (calculatePerformanceScore 5 0 0 false) (constRng (1/2))).2).1
      = (if (constRng (1/2)).seq (constRng (1/2)).pos * 100 < 20 ∧
            (constRng (1/2)).seq ((constRng (1/2)).pos + 1) * 100 < 20
         then .shiny else .standard) :=
  lossAward_rarity_variant 5 0 0 (constRng (1/2)) (by norm_num [constRng])
    (by norm_num [constRng]) (by norm_num [constRng]) (by norm_num [constRng])

/-- Every branch of `determineRarity` draws exactly once. -/
theorem determineRarity_rng (score : ℚ) (g : Rng) :
    (determineRarity score g).2 = { seq := g.seq, pos := g.pos + 1 } := by
  unfold determineRarity Rng.random
  dsimp only
  split_ifs <;> rfl

/-- Every branch of `determineVariant` draws exactly once. -/
theorem determineVariant_rng (rarity : CardRarity) (g : Rng) :
    (determineVariant rarity g).2 = { seq := g.seq, pos := g.pos + 1 } := by
  unfold determineVariant Rng.random
  dsimp only
  split_ifs <;> rfl

/-- The difficulty stat is always an integer in [0, 100] (for a faithful
generator and an oracle reporting scores in [0, 100]). -/
theorem stats_difficulty_bounds (catalog : List Character) (characterId : String)
    (outcome : OracleOutcome) (g : Rng)
    (hseq : ∀ n, 0 ≤ g.seq n ∧ g.seq n < 1)
    (hok : ∀ b s, outcome = .response b s → 0 ≤ s ∧ s ≤ 100) :
    0 ≤ (calculateCharacterStats catalog characterId outcome g).1.difficulty ∧
      (calculateCharacterStats catalog characterId outcome g).1.difficulty ≤ 100 := by
  unfold calculateCharacterStats
  cases hf : catalog.find? (fun c => c.id = characterId) with
  | none => simp
  | some character =>
    cases outcome with
    | thrown =>
      dsimp only [Rng.random]
      constructor
      · refine Int.le_floor.mpr ?_
        push_cast
        nlinarith [(hseq (g.pos + 1)).1]
      · have hlt : (⌊g.seq (g.pos + 1) * 100⌋ : ℤ) < 100 := by
          refine Int.floor_lt.mpr ?_
          push_cast
          nlinarith [(hseq (g.pos + 1)).2]
        omega
    | response ok s =>
      obtain ⟨hs0, hs1⟩ := hok ok s rfl
      cases ok with
      | false => simp [Rng.random]
      | true =>
        simp only [Rng.random, jsRound, if_true]
        constructor
        · refine Int.le_floor.mpr ?_
          push_cast
          linarith
        · have hlt : (⌊s + 1 / 2⌋ : ℤ) < 101 := by
            refine Int.floor_lt.mpr ?_
            push_cast
            linarith
          omega

/-- Counterexample to C5: on a non-success HTTP response (no exception
thrown), the Stat Assigner keeps the default difficulty 50 rather than
drawing the random fallback — with a generator all of whose draws would give
`⌊u·100⌋ = 7`, the difficulty is 50, not 7. -/
theorem oracle_non_ok_keeps_default :
    ((calculateCharacterStats catalogSample "spider-man" (.response false 37)
        (constRng (7/100))).1.difficulty = 50) ∧
    (⌊(constRng (7/100)).seq 0 * 100⌋ = (7 : ℤ)) ∧
    (⌊(constRng (7/100)).seq 1 * 100⌋ = (7 : ℤ)) ∧
    (⌊(constRng (7/100)).seq 2 * 100⌋ = (7 : ℤ)) ∧
    ((50 : ℤ) ≠ 7) := by
  have hfloor : ∀ n : ℕ, ⌊(constRng (7/100)).seq n * 100⌋ = (7 : ℤ) := by
    intro n
    rw [show (constRng (7/100)).seq n * 100 = ((7 : ℤ) : ℚ) by
      norm_num [constRng]]
    exact Int.floor_intCast 7
  refine ⟨?_, hfloor 0, hfloor 1, hfloor 2, by decide⟩
  simp [calculateCharacterStats, catalogSample, chSample, List.find?, Rng.random]

/-- C5 (amended): the difficulty stat always lies in [0, 100] and the oracle
failure never reaches the award endpoint (its response carries a difficulty
in [0, 100]); when the oracle call throws, the fallback is the uniform random
integer `⌊u·100⌋ ∈ [0,100)` from the next draw; when the oracle returns a
non-success HTTP response, the difficulty is the fixed default 50 (no random
fallback). -/
theorem difficulty_fallback_spec (catalog : List Character) (characterId : String)
    (outcome : OracleOutcome) (g : Rng)
    (hseq : ∀ n, 0 ≤ g.seq n ∧ g.seq n < 1)
    (hok : ∀ b s, outcome = .response b s → 0 ≤ s ∧ s ≤ 100) :
    (0 ≤ (calculateCharacterStats catalog characterId outcome g).1.difficulty ∧
      (calculateCharacterStats catalog characterId outcome g).1.difficulty ≤ 100) ∧
    ((catalog.find? (fun c => c.id = characterId)).isSome = true →
      (outcome = .thrown →
        (calculateCharacterStats catalog characterId outcome g).1.difficulty
          = ⌊g.seq (g.pos + 1) * 100⌋) ∧
      (∀ s, outcome = .response false s →
        (calculateCharacterStats catalog characterId outcome g).1.difficulty = 50)) ∧
    (∀ (req : AwardCardRequest) (collection : List CharacterCard) (now : ℕ)
        (d : ℤ),
      (awardCard catalog req collection outcome g now).1.difficulty? = some d →
      0 ≤ d ∧ d ≤ 100) := by
  refine ⟨stats_difficulty_bounds catalog characterId outcome g hseq hok, ?_, ?_⟩
  · intro hsome
    rw [Option.isSome_iff_exists] at hsome
    obtain ⟨character, hf⟩ := hsome
    constructor
    · intro hout
      subst hout
      unfold calculateCharacterStats
      rw [hf]
      simp [Rng.random]
    · intro s hout
      subst hout
      unfold calculateCharacterStats
      rw [hf]
      simp [Rng.random]
  · intro req collection now d hd
    unfold awardCard at hd
    by_cases hv : req.characterId.getD "" = "" ∨ req.guessTime = none ∨
        req.cluesUsed = none ∨ req.wrongAttempts = none
    · rw [if_pos hv] at hd
      simp [AwardResponse.difficulty?, AwardResponse.card?, AwardResponse.reward?] at hd
    · rw [if_neg hv] at hd
      cases hf : catalog.find? (fun c => c.id = req.characterId.getD "") with
      | none =>
        rw [hf] at hd
        simp [AwardResponse.difficulty?, AwardResponse.card?, AwardResponse.reward?] at hd
      | some character =>
        rw [hf] at hd
        simp only [AwardResponse.difficulty?, AwardResponse.card?,
          AwardResponse.reward?, performReward, Option.map_some', Option.some.injEq] at hd
        rw [determineVariant_rng, determineRarity_rng] at hd
        subst hd
        exact stats_difficulty_bounds catalog (req.characterId.getD "") outcome
          { seq := g.seq, pos := g.pos + 1 + 1 } (fun n => hseq n) hok

/-- Witness for C5 (amended) with a thrown oracle call and all draws 1/2. -/
theorem difficulty_fallback_spec_witness :
    (0 ≤ (calculateCharacterStats catalogSample "spider-man" .thrown
        (constRng (1/2))).1.difficulty ∧
      (calculateCharacterStats catalogSample "spider-man" .thrown
        (constRng (1/2))).1.difficulty ≤ 100) ∧
    ((catalogSample.find? (fun c => c.id = "spider-man")).isSome = true →
      (OracleOutcome.thrown = .thrown →
        (calculateCharacterStats catalogSample "spider-man" .thrown
            (constRng (1/2))).1.difficulty
          = ⌊(constRng (1/2)).seq ((constRng (1/2)).pos + 1) * 100⌋) ∧
      (∀ s, OracleOutcome.thrown = .response false s →
        (calculateCharacterStats catalogSample "spider-man" .thrown
            (constRng (1/2))).1.difficulty = 50)) ∧
    (∀ (req : AwardCardRequest) (collection : List CharacterCard) (now : ℕ)
        (d : ℤ),
      (awardCard catalogSample req collection .thrown (constRng (1/2)) now).1.difficulty?
          = some d →
      0 ≤ d ∧ d ≤ 100) :=
  difficulty_fallback_spec catalogSample "spider-man" .thrown (constRng (1/2))
    (fun n => by norm_num [constRng]) (fun b s h => nomatch h)

/-- C6 (bug evidence): two awards at timestamps 1000 and 2000 leave the store
in unlock order, but a GET /collection call then sorts the STORED array in
place (newest first), after which GET /achievements reports the first-card
achievement with the SECOND card's timestamp (2000) instead of the 1st-ever
card's (1000). -/
theorem collection_sort_breaks_achievement_indexing :
    (stateTwo.map (fun c => c.unlockedAt) = [1000, 2000]) ∧
    (stateSorted.map (fun c => c.unlockedAt) = [2000, 1000]) ∧
    (((getAchievements stateSorted).find? (fun a => a.id = "first-card")).map
        (fun a => a.unlockedAt) = some (some 2000)) ∧
    ((2000 : ℕ) ≠ 1000) := by
  have h1 : stateTwo.map (fun c => c.unlockedAt) = [1000, 2000] := rfl
  cases hS : stateTwo with
  | nil => rw [hS] at h1; simp at h1
  | cons a t =>
    cases t with
    | nil => rw [hS] at h1; simp at h1
    | cons b t2 =>
      cases t2 with
      | cons c t3 => rw [hS] at h1; simp at h1
      | nil =>
        rw [hS] at h1
        simp only [List.map_cons, List.map_nil, List.cons.injEq, and_true] at h1
        obtain ⟨ha, hb⟩ := h1
        have hsort : stateSorted = [b, a] := by
          unfold stateSorted getCardCollection
          rw [hS]
          simp [List.mergeSort, ha, hb]
        refine ⟨by simp [ha, hb], ?_, ?_, by decide⟩
        · rw [hsort]
          simp [ha, hb]
        · rw [hsort]
          simp [getAchievements, List.find?, hb]

/-- A valid request always succeeds: the response is a success, the new store
is the old one with the minted card appended, and the card carries the
requested character id, serial `existing count + 1`, and the request clock. -/
theorem awardCard_valid_success (catalog : List Character)
    (req : AwardCardRequest) (collection : List CharacterCard)
    (outcome : OracleOutcome) (g : Rng) (now : ℕ)
    (h : validRequest catalog req = true) :
    ∃ reward, awardCard catalog req collection outcome g now
        = (.success reward, collection ++ [reward.card]) ∧
      reward.card.characterId = req.characterId.getD "" ∧
      reward.card.serialNumber = countC collection (req.characterId.getD "") + 1 ∧
      reward.card.unlockedAt = now := by
  unfold validRequest at h
  simp only [Bool.and_eq_true, Bool.not_eq_true', decide_eq_false_iff_not] at h
  obtain ⟨⟨⟨⟨hcid, hgt⟩, hcu⟩, hwa⟩, hfind⟩ := h
  rw [Option.isSome_iff_exists] at hfind
  obtain ⟨character, hf⟩ := hfind
  unfold awardCard
  rw [if_neg, hf]
  · exact ⟨_, rfl, rfl, rfl, rfl⟩
  · push_neg
    exact ⟨hcid, Option.isSome_iff_ne_none.mp hgt,
      Option.isSome_iff_ne_none.mp hcu, Option.isSome_iff_ne_none.mp hwa⟩

/-- Auxiliary invariant: processing a batch of valid awards keeps each
character's serial list equal to `[1, …, count]`. -/
theorem runAwards_serials (catalog : List Character) (c : String) :
    ∀ (envs : List AwardEnv) (state : List CharacterCard),
      (∀ e ∈ envs, validRequest catalog e.req = true) →
      serialsOf state c = (List.range (countC state c)).map (fun k => k + 1) →
      serialsOf (runAwards catalog state envs) c
        = (List.range (countC state c +
            (envs.filter (fun e => e.req.characterId.getD "" = c)).length)).map
            (fun k => k + 1) := by
  intro envs
  induction envs with
  | nil =>
    intro state _ hP
    simpa [runAwards] using hP
  | cons e rest ih =>
    intro state hall hP
    obtain ⟨reward, heq, hcid, hserial, _⟩ :=
      awardCard_valid_success catalog e.req state e.outcome e.g e.now
        (hall e (List.mem_cons_self e rest))
    have hrest : ∀ e' ∈ rest, validRequest catalog e'.req = true :=
      fun e' he' => hall e' (List.mem_cons_of_mem e he')
    have hstep : runAwards catalog state (e :: rest)
        = runAwards catalog (state ++ [reward.card]) rest := by
      simp only [runAwards]
      rw [heq]
    rw [hstep]
    by_cases hc : e.req.characterId.getD "" = c
    · have hcard : reward.card.characterId = c := by rw [hcid, hc]
      have hcount : countC (state ++ [reward.card]) c = countC state c + 1 := by
        simp [countC, List.filter_append, hcard]
      have happ : serialsOf (state ++ [reward.card]) c
          = serialsOf state c ++ [reward.card.serialNumber] := by
        simp [serialsOf, List.filter_append, hcard]
      have hserials : serialsOf (state ++ [reward.card]) c
          = (List.range (countC (state ++ [reward.card]) c)).map (fun k => k + 1) := by
        rw [happ, hP, hserial, hc, hcount, List.range_succ]
        simp
      have := ih (state ++ [reward.card]) hrest hserials
      rw [this, hcount]
      have hfilter : ((e :: rest).filter
          (fun e => e.req.characterId.getD "" = c)).length
          = (rest.filter (fun e => e.req.characterId.getD "" = c)).length + 1 := by
        simp [List.filter_cons, hc]
      rw [hfilter]
      congr 2
      omega
    · have hcard : ¬(reward.card.characterId = c) := by rw [hcid]; exact hc
      have hcount : countC (state ++ [reward.card]) c = countC state c := by
        simp [countC, List.filter_append, hcard]
      have happ : serialsOf (state ++ [reward.card]) c = serialsOf state c := by
        simp [serialsOf, List.filter_append, hcard]
      have hserials : serialsOf (state ++ [reward.card]) c
          = (List.range (countC (state ++ [reward.card]) c)).map (fun k => k + 1) := by
        rw [happ, hP, hcount]
      have := ih (state ++ [reward.card]) hrest hserials
      rw [this, hcount]
      have hfilter : ((e :: rest).filter
          (fun e => e.req.characterId.getD "" = c)).length
          = (rest.filter (fun e => e.req.characterId.getD "" = c)).length := by
        simp [List.filter_cons, hc]
      rw [hfilter]

/-- C7: the serial number minted for a character is the count of that
character's existing cards plus one; over any batch of valid sequential
awards starting from an empty store, a character's serials are exactly
1, 2, 3, …; and `maxSupply` is a function of rarity alone with values
mythic 100, legendary 500, epic 1000, rare 5000, common 10000. -/
theorem awardCard_serials_and_maxSupply :
    (∀ (catalog : List Character) (req : AwardCardRequest)
        (collection : List CharacterCard) (outcome : OracleOutcome) (g : Rng)
        (now : ℕ),
      validRequest catalog req = true →
      (awardCard catalog req collection outcome g now).1.serialNumber?
        = some (countC collection (req.characterId.getD "") + 1)) ∧
    (maxSupplyOf .mythic = 100 ∧ maxSupplyOf .legendary = 500 ∧
      maxSupplyOf .epic = 1000 ∧ maxSupplyOf .rare = 5000 ∧
      maxSupplyOf .common = 10000) ∧
    (∀ (catalog : List Character) (req : AwardCardRequest)
        (collection : List CharacterCard) (outcome : OracleOutcome) (g : Rng)
        (now : ℕ),
      (awardCard catalog req collection outcome g now).1.maxSupply?
        = ((awardCard catalog req collection outcome g now).1.rarity?).map
            maxSupplyOf) ∧
    (∀ (catalog : List Character) (c : String) (envs : List AwardEnv),
      (∀ e ∈ envs, validRequest catalog e.req = true) →
      serialsOf (runAwards catalog [] envs) c
        = (List.range ((envs.filter
            (fun e => e.req.characterId.getD "" = c)).length)).map
            (fun k => k + 1)) := by
  refine ⟨?_, ⟨rfl, rfl, rfl, rfl, rfl⟩, ?_, ?_⟩
  · intro catalog req collection outcome g now h
    obtain ⟨reward, heq, _, hserial, _⟩ :=
      awardCard_valid_success catalog req collection outcome g now h
    rw [heq]
    simp only [AwardResponse.serialNumber?, AwardResponse.card?,
      AwardResponse.reward?, Option.map_some']
    rw [hserial]
  · intro catalog req collection outcome g now
    unfold awardCard
    by_cases hv : req.characterId.getD "" = "" ∨ req.guessTime = none ∨
        req.cluesUsed = none ∨ req.wrongAttempts = none
    · rw [if_pos hv]
      simp [AwardResponse.maxSupply?, AwardResponse.rarity?,
        AwardResponse.card?, AwardResponse.reward?]
    · rw [if_neg hv]
      cases hf : catalog.find? (fun c => c.id = req.characterId.getD "") with
      | none =>
        simp [AwardResponse.maxSupply?, AwardResponse.rarity?,
          AwardResponse.card?, AwardResponse.reward?]
      | some character =>
        simp [AwardResponse.maxSupply?, AwardResponse.rarity?,
          AwardResponse.card?, AwardResponse.reward?, performReward]
  · intro catalog c envs hall
    have hbase : serialsOf [] c = (List.range (countC [] c)).map (fun k => k + 1) := by
      simp [serialsOf, countC]
    have := runAwards_serials catalog c envs [] hall hbase
    simpa [countC] using this

/-- Witness for C7 at two concrete sequential winning awards. -/
theorem awardCard_serials_and_maxSupply_witness :
    ((awardCard catalogSample reqWin [] (.response true 50) (constRng (1/2))
        1000).1.serialNumber?
      = some (countC [] (reqWin.characterId.getD "") + 1)) ∧
    (serialsOf (runAwards catalogSample [] [envA, envB]) "spider-man"
      = (List.range ((([envA, envB]).filter
          (fun e => e.req.characterId.getD "" = "spider-man")).length)).map
          (fun k => k + 1)) :=
  ⟨awardCard_serials_and_maxSupply.1 catalogSample reqWin [] (.response true 50)
      (constRng (1/2)) 1000 (by decide),
   awardCard_serials_and_maxSupply.2.2.2 catalogSample "spider-man" [envA, envB]
      (by decide)⟩

/-- Membership, by id, in the edge-triggered unlock list built by
`newlyUnlocked` (conditions evaluated on the post-append collection). -/
theorem newlyUnlocked_mem (coll : List CharacterCard) (rarity : CardRarity)
    (score : ℚ) (now : ℕ) :
    ("first-card" ∈ (newlyUnlocked coll rarity score now).map (fun a => a.id)
       ↔ coll.length = 1) ∧
    ("collector" ∈ (newlyUnlocked coll rarity score now).map (fun a => a.id)
       ↔ coll.length = 10) ∧
    ("legendary-pull" ∈ (newlyUnlocked coll rarity score now).map (fun a => a.id)
       ↔ rarity = .legendary ∧
         (coll.filter (fun c => c.rarity = .legendary)).length = 1) ∧
    ("perfect-game" ∈ (newlyUnlocked coll rarity score now).map (fun a => a.id)
       ↔ score = 100) := by
  unfold newlyUnlocked
  refine ⟨?_, ?_, ?_, ?_⟩ <;> split_ifs <;> simp_all

/-- C8: on every successful award, the reported `unlockedAchievements`
contain `first-card` iff the post-append total is exactly 1, `collector` iff
it is exactly 10, `legendary-pull` iff the minted card is legendary and no
legendary was owned before, and `perfect-game` iff the performance score is
exactly 100. -/
theorem awardCard_unlocked_achievements_iff (catalog : List Character)
    (req : AwardCardRequest) (collection : List CharacterCard)
    (outcome : OracleOutcome) (g : Rng) (now : ℕ)
    (h : (awardCard catalog req collection outcome g now).1.isSuccess = true) :
    ("first-card" ∈ (awardCard catalog req collection outcome g now).1.unlockedIds
       ↔ collection.length + 1 = 1) ∧
    ("collector" ∈ (awardCard catalog req collection outcome g now).1.unlockedIds
       ↔ collection.length + 1 = 10) ∧
    ("legendary-pull" ∈ (awardCard catalog req collection outcome g now).1.unlockedIds
       ↔ (awardCard catalog req collection outcome g now).1.rarity? = some .legendary ∧
         (collection.filter (fun c => c.rarity = .legendary)).length = 0) ∧
    ("perfect-game" ∈ (awardCard catalog req collection outcome g now).1.unlockedIds
       ↔ (awardCard catalog req collection outcome g now).1.score? = some 100) := by
  unfold awardCard at h ⊢
  by_cases hv : req.characterId.getD "" = "" ∨ req.guessTime = none ∨
      req.cluesUsed = none ∨ req.wrongAttempts = none
  · rw [if_pos hv] at h
    simp [AwardResponse.isSuccess] at h
  · rw [if_neg hv] at h ⊢
    cases hf : catalog.find? (fun c => c.id = req.characterId.getD "") with
    | none =>
      rw [hf] at h
      simp [AwardResponse.isSuccess] at h
    | some character =>
      simp only [AwardResponse.unlockedIds, AwardResponse.rarity?,
        AwardResponse.score?, AwardResponse.card?, AwardResponse.reward?,
        performReward, Option.map_some', Option.some.injEq]
      rw [(newlyUnlocked_mem _ _ _ _).1, (newlyUnlocked_mem _ _ _ _).2.1,
        (newlyUnlocked_mem _ _ _ _).2.2.1, (newlyUnlocked_mem _ _ _ _).2.2.2]
      refine ⟨by simp, by simp, ?_, by simp⟩
      by_cases hr : (determineRarity
          (calculatePerformanceScore (req.guessTime.getD 0) (req.cluesUsed.getD 0)
            (req.wrongAttempts.getD 0) (req.isWon.getD false)) g).1 = .legendary
      · simp [List.filter_append, hr]
      · simp [List.filter_append, hr]

/-- Witness for C8 at a concrete first award from the empty store. -/
theorem awardCard_unlocked_achievements_iff_witness :
    ("first-card" ∈ (awardCard catalogSample reqWin [] (.response true 50)
        (constRng (1/2)) 1000).1.unlockedIds
       ↔ List.length ([] : List CharacterCard) + 1 = 1) ∧
    ("collector" ∈ (awardCard catalogSample reqWin [] (.response true 50)
        (constRng (1/2)) 1000).1.unlockedIds
       ↔ List.length ([] : List CharacterCard) + 1 = 10) ∧
    ("legendary-pull" ∈ (awardCard catalogSample reqWin [] (.response true 50)
        (constRng (1/2)) 1000).1.unlockedIds
       ↔ (awardCard catalogSample reqWin [] (.response true 50)
            (constRng (1/2)) 1000).1.rarity? = some .legendary ∧
         (List.filter (fun c => c.rarity = .legendary)
            ([] : List CharacterCard)).length = 0) ∧
    ("perfect-game" ∈ (awardCard catalogSample reqWin [] (.response true 50)
        (constRng (1/2)) 1000).1.unlockedIds
       ↔ (awardCard catalogSample reqWin [] (.response true 50)
            (constRng (1/2)) 1000).1.score? = some 100) :=
  awardCard_unlocked_achievements_iff catalogSample reqWin [] (.response true 50)
    (constRng (1/2)) 1000 rfl

/-- C9: the popular-universe branch of the popularity stat is unreachable —
no value of the `universe` union type ('Marvel' | 'DC' | 'Other') equals any
allow-list entry — so every catalog character's popularity lies in [30, 80). -/
theorem popularity_stat_range (c : Character) :
    popularUniverses.contains c.universe'.displayString = false ∧
    ∀ u : ℚ, 0 ≤ u → u < 1 →
      30 ≤ popularityStat c u ∧ popularityStat c u < 80 := by
  have hcontains : popularUniverses.contains c.universe'.displayString = false := by
    cases hu : c.universe' <;> decide
  refine ⟨hcontains, ?_⟩
  intro u h0 h1
  unfold popularityStat
  rw [hcontains]
  simp only [Bool.false_eq_true, if_false]
  constructor
  · have hnn : (0 : ℤ) ≤ ⌊u * 50⌋ := by
      refine Int.le_floor.mpr ?_
      push_cast
      nlinarith
    omega
  · have hlt : ⌊u * 50⌋ < (50 : ℤ) := by
      refine Int.floor_lt.mpr ?_
      push_cast
      nlinarith
    omega

/-- Witness for C9 at the sample character and a draw of 1/2. -/
theorem popularity_stat_range_witness :
    popularUniverses.contains chSample.universe'.displayString = false ∧
    (30 ≤ popularityStat chSample (1/2) ∧ popularityStat chSample (1/2) < 80) :=
  ⟨(popularity_stat_range chSample).1,
   (popularity_stat_range chSample).2 (1/2) (by norm_num) (by norm_num)⟩

/-- The award handler can only ever push these four achievement ids. -/
theorem newlyUnlocked_ids (coll : List CharacterCard) (rarity : CardRarity)
    (score : ℚ) (now : ℕ) :
    ∀ a ∈ newlyUnlocked coll rarity score now,
      a.id = "first-card" ∨ a.id = "collector" ∨ a.id = "legendary-pull" ∨
        a.id = "perfect-game" := by
  unfold newlyUnlocked
  intro a ha
  split_ifs at ha <;> simp_all <;> aesop

/-- C10: no award response ever lists `mythic-hunter` or `master-collector`
among its newly unlocked achievements (for any store state, including the
first mythic mint or the 50th card), while the achievements endpoint's fixed
list does expose both ids. -/
theorem award_never_reports_mythic_hunter_or_master_collector
    (catalog : List Character) (req : AwardCardRequest)
    (collection : List CharacterCard) (outcome : OracleOutcome) (g : Rng)
    (now : ℕ) :
    ("mythic-hunter" ∉ (awardCard catalog req collection outcome g now).1.unlockedIds) ∧
    ("master-collector" ∉ (awardCard catalog req collection outcome g now).1.unlockedIds) ∧
    ((getAchievements collection).map (fun a => a.id)
      = ["first-card", "collector", "master-collector", "legendary-pull",
         "mythic-hunter"]) := by
  have key : ∀ x, x ∈ (awardCard catalog req collection outcome g now).1.unlockedIds →
      x = "first-card" ∨ x = "collector" ∨ x = "legendary-pull" ∨
        x = "perfect-game" := by
    intro x hx
    unfold awardCard at hx
    by_cases hv : req.characterId.getD "" = "" ∨ req.guessTime = none ∨
        req.cluesUsed = none ∨ req.wrongAttempts = none
    · rw [if_pos hv] at hx
      simp [AwardResponse.unlockedIds] at hx
    · rw [if_neg hv] at hx
      cases hf : catalog.find? (fun c => c.id = req.characterId.getD "") with
      | none =>
        rw [hf] at hx
        simp [AwardResponse.unlockedIds] at hx
      | some character =>
        rw [hf] at hx
        simp only [AwardResponse.unlockedIds, performReward] at hx
        rw [List.mem_map] at hx
        obtain ⟨a, ha, rfl⟩ := hx
        exact newlyUnlocked_ids _ _ _ _ a ha
  refine ⟨?_, ?_, rfl⟩
  · intro hx
    rcases key _ hx with h | h | h | h <;> simp at h
  · intro hx
    rcases key _ hx with h | h | h | h <;> simp at h
